import Mathlib

/-!
Shallow embedding of the Readium SDK identifier type `IRI`
(`src/ePub3/utilities/iri.h`) together with its spec-level contracts.

The header file carries the inline member functions (the default, copy and
move constructors, `IsURN`, `Scheme`, `NameID`, `NamespacedString`, `Host`,
`Port`, `Query`, `Fragment`, `LastPathComponent`) which are embedded here
directly from the source.  The out-of-line member bodies (`iri.cpp`) are not
part of the sources, so those operations — the three public constructors,
the comparators, the mutators, the encoding helpers and `URIString` — are
modelled from the specification; each such definition says so in its doc
comment.

A null `GURL*` pointer is modelled as `Option.none`; dereferencing a null
pointer is the unrepresentable/failure outcome, surfaced as `none` in the
result of the operation that performs the dereference.
-/

/-- Modelled from the spec: component record of the external URL engine
(GURL), per the collaborator contract
`Parse(text) -> {scheme, host, port, path, query, fragment, hasHost}`
together with the user-info (account, shared-secret) pair.  The port is kept
as its textual digits; an absent port is the empty string. -/
structure GURLState where
  scheme : String
  username : String
  password : String
  host : String
  port : String
  path : String
  query : String
  ref : String
deriving DecidableEq

/-- The all-empty URL state (no scheme, no host, empty path). -/
def GURLState.empty : GURLState := ⟨"", "", "", "", "", "", "", ""⟩

/-- The IRI object state: `_urnComponents` (a `std::vector<string>`),
`_url` (a `GURL*`, with `none` standing for the null pointer) and the
advisory `_pureIRI` cache string. -/
structure IRI where
  urnComponents : List String
  url : Option GURLState
  pureIRI : String
deriving DecidableEq

/-- Header line 65: `IRI() : _urnComponents(), _url(nullptr), _pureIRI() {}` —
the default-constructed, empty (and thus invalid) IRI. -/
def IRI.empty : IRI := ⟨[], none, ""⟩

/-- Header line 49/89: the path separator character is `/`. -/
def gPathSeparator : String := "/"

/-- Header line 50: the URN scheme literal `urn` (spec: the ordered triple
starts with the literal `"urn"`). -/
def gURNScheme : String := "urn"

/-- Header line 153: `bool IsURN() const { return _urnComponents.size() > 1; }` -/
def IRI.IsURN (i : IRI) : Bool := i.urnComponents.length > 1

/-- Header line 164:
`const string Scheme() const { return (IsURN() ? _urnComponents[0] : _url->scheme()); }` —
the URL branch dereferences `_url`, so a null `_url` yields `none`. -/
def IRI.Scheme (i : IRI) : Option String :=
  if i.IsURN then some (i.urnComponents.getD 0 "")
  else i.url.map GURLState.scheme

/-- Header line 168:
`const string& NameID() const { if (!IsURN()) { throw std::invalid_argument("Not a URN"); } return _urnComponents[1]; }` —
the thrown `std::invalid_argument` (the spec's InvalidOperation) is the
`Except.error` case. -/
def IRI.NameID (i : IRI) : Except String String :=
  if i.IsURN then Except.ok (i.urnComponents.getD 1 "")
  else Except.error "Not a URN"

/-- Header line 180:
`const string NamespacedString() const { if (!IsURN()) { throw std::invalid_argument("Not a URN"); } return _urnComponents[2]; }` -/
def IRI.NamespacedString (i : IRI) : Except String String :=
  if i.IsURN then Except.ok (i.urnComponents.getD 2 "")
  else Except.error "Not a URN"

/-- Header line 172: `const string Host() const { return _url->host(); }` —
dereferences `_url` with no variant dispatch; null pointer gives `none`. -/
def IRI.Host (i : IRI) : Option String := i.url.map GURLState.host

/-- Decimal reading of a digit string (the port digits). -/
def digitsToNat (l : List Char) : Nat :=
  l.foldl (fun a c => a * 10 + (c.toNat - 48)) 0

/-- Modelled from the spec: the external engine's `EffectiveIntPort()`;
an absent port is reported by the engine's unspecified-port sentinel `-1`. -/
def effectiveIntPort (u : GURLState) : Int :=
  if u.port.isEmpty then -1 else (digitsToNat u.port.data : Int)

/-- Header line 184: `int Port() const { return _url->EffectiveIntPort(); }` -/
def IRI.Port (i : IRI) : Option Int := i.url.map effectiveIntPort

/-- Header line 195: `const string Query() const { return _url->query(); }` -/
def IRI.Query (i : IRI) : Option String := i.url.map GURLState.query

/-- Header line 199: `const string Fragment() const { return _url->ref(); }` -/
def IRI.Fragment (i : IRI) : Option String := i.url.map GURLState.ref

/-- Modelled from the spec: the external engine's `ExtractFileName()` —
"returns the last path segment (text after the final separator, or the
whole path if no separator)". -/
def extractFileName (path : String) : String :=
  String.mk ((path.data.reverse.takeWhile (fun c => c != '/')).reverse)

/-- Header line 203:
`const string LastPathComponent() const { return _url->ExtractFileName(); }` -/
def IRI.LastPathComponent (i : IRI) : Option String :=
  i.url.map (fun u => extractFileName u.path)

/-- Header line 102:
`IRI(const IRI& o) : _urnComponents(o._urnComponents), _url(new GURL(*o._url)), _pureIRI(o._pureIRI) {}` —
the dereference `*o._url` has no null guard, so copying an IRI whose URL
pointer is null fails (`none`). -/
def IRI.copy (o : IRI) : Option IRI :=
  match o.url with
  | none => none
  | some u => some ⟨o.urnComponents, some u, o.pureIRI⟩

/-- Header line 106:
`IRI(IRI&& o) : _urnComponents(std::move(o._urnComponents)), _url(o._url), _pureIRI(std::move(o._pureIRI)) { o._url = nullptr; }` —
the result pairs the new object with the moved-from source: the vector and
string are pilfered (left empty) and the source's URL pointer is nulled. -/
def IRI.moveCtor (o : IRI) : IRI × IRI :=
  (⟨o.urnComponents, o.url, o.pureIRI⟩, ⟨[], none, ""⟩)

/-- Modelled from the spec: `IRI& operator=(IRI&&)` — "move
construction/assignment transfers ownership and leaves the source in the
empty/invalid state".  The pair is (new value of the target, source after
the move); the target's previous value is discarded. -/
def IRI.moveAssign (_target o : IRI) : IRI × IRI :=
  (⟨o.urnComponents, o.url, o.pureIRI⟩, ⟨[], none, ""⟩)

/-- A generic concatenation-map over lists, used by the encoders. -/
def concatMap {α β : Type} (f : α → List β) : List α → List β
  | [] => []
  | a :: as => f a ++ concatMap f as

/-- Split a character list at the first occurrence of `c`: `some (before, after)`
with `c` itself dropped, or `none` when `c` does not occur. -/
def splitOnceList (c : Char) : List Char → Option (List Char × List Char)
  | [] => none
  | x :: xs =>
    if x = c then some ([], xs)
    else
      match splitOnceList c xs with
      | none => none
      | some (a, b) => some (x :: a, b)

/-- String wrapper for `splitOnceList`. -/
def splitOnce (s : String) (c : Char) : Option (String × String) :=
  match splitOnceList c s.data with
  | none => none
  | some (a, b) => some (String.mk a, String.mk b)

/-- `true` iff the character is an ASCII code point (0x00–0x7F). -/
def isAsciiChar (c : Char) : Bool := decide (c.toNat < 128)

/-- `true` iff every character of the string is ASCII. -/
def allAscii (s : String) : Bool := s.data.all isAsciiChar

/-- Modelled from the spec: the fixed reserved-character set used by
`URLEncodeComponent` — "path/query/fragment delimiters and the percent sign
itself" (static `IRI::gReservedCharacters`, value not in the sources). -/
def gReservedCharacters : List Char := ['/', '?', '#', '%']

/-- The component delimiters proper (the reserved set less the escape
character `%`). -/
def delimChars : List Char := ['/', '?', '#']

/-- Uppercase hexadecimal digit for a nibble value. -/
def hexUpper : List Char :=
  ['0', '1', '2', '3', '4', '5', '6', '7', '8', '9', 'A', 'B', 'C', 'D', 'E', 'F']

/-- Hex digit character of `n` (callers pass nibble values `n < 16`). -/
def hexDigit (n : Nat) : Char := hexUpper.getD n '0'

/-- The `%XX` escape of a byte value. -/
def percentEscape (b : Nat) : List Char := ['%', hexDigit (b / 16), hexDigit (b % 16)]

/-- The UTF-8 byte sequence of a code point. -/
def utf8Bytes (c : Char) : List Nat :=
  let n := c.toNat
  if n < 128 then [n]
  else if n < 2048 then [192 + n / 64, 128 + n % 64]
  else if n < 65536 then [224 + n / 4096, 128 + (n / 64) % 64, 128 + n % 64]
  else [240 + n / 262144, 128 + (n / 4096) % 64, 128 + (n / 64) % 64, 128 + n % 64]

/-- Modelled from the spec: `IRI::URLEncodeComponent` — "percent-encodes
every byte of `s` that is in a fixed reserved-character set ...; all other
bytes pass through unchanged". -/
def URLEncodeComponent (s : String) : String :=
  String.mk (concatMap
    (fun c => if c ∈ gReservedCharacters then percentEscape c.toNat else [c])
    s.data)

/-- Modelled from the spec: `IRI::PercentEncodeUCS` — "ASCII code points
(0x00–0x7F) pass through unmodified; any non-ASCII code point is encoded as
the percent-escaped sequence of its UTF-8 byte representation". -/
def PercentEncodeUCS (s : String) : String :=
  String.mk (concatMap
    (fun c =>
      if isAsciiChar c then [c]
      else concatMap percentEscape (utf8Bytes c))
    s.data)

/-- Modelled from the spec: `IRI::IDNEncodeHostname` — "converts a Unicode
hostname into its ASCII-Compatible Encoding (the `xn--` labels form) ...
A host already fully ASCII is returned unchanged."  The punycode digit
algorithm itself belongs to the delegated engine and is out of scope; the
non-ASCII branch is modelled as an `xn--`-marked ASCII hex rendering of the
host's UTF-8 bytes. -/
def IDNEncodeHostname (host : String) : String :=
  if host.data.all isAsciiChar then host
  else
    "xn--" ++ String.mk (concatMap
      (fun c => concatMap (fun b => [hexDigit (b / 16), hexDigit (b % 16)]) (utf8Bytes c))
      host.data)

/-- The ASCII serialization of one component: reserved characters are
percent-escaped, then every remaining non-ASCII code point is
percent-escaped as its UTF-8 bytes. -/
def asciiEncodeComponent (s : String) : String :=
  PercentEncodeUCS (URLEncodeComponent s)

/-- Join URN components with the `:` separator. -/
def joinComponents : List String → String
  | [] => ""
  | [s] => s
  | s :: rest => s ++ ":" ++ joinComponents rest

/-- Modelled from the spec: `IRI::URIString()` — "ASCII serialization:
percent-encodes all reserved and all non-ASCII bytes (via PercentEncodeUCS)
in every component except the host, which is IDN-encoded to ASCII;
guarantees the output is pure ASCII".  The URL form follows the grammar
`scheme://[user[:pass]@]host[:port][/path][?query][#fragment]`; a URN is
its colon-joined component triple.  The reconstruction itself is the
delegated engine's `Reconstruct(components) -> text`, which never fails, so
a null URL pointer is read as the all-empty state here. -/
def IRI.URIString (i : IRI) : String :=
  if i.IsURN then joinComponents (i.urnComponents.map asciiEncodeComponent)
  else
    let u := i.url.getD GURLState.empty
    (if u.scheme.isEmpty then "" else asciiEncodeComponent u.scheme ++ ":")
    ++ (if u.host.isEmpty then ""
        else "//"
          ++ (if u.username.isEmpty then ""
              else asciiEncodeComponent u.username
                ++ (if u.password.isEmpty then "" else ":" ++ asciiEncodeComponent u.password)
                ++ "@")
          ++ IDNEncodeHostname u.host
          ++ (if u.port.isEmpty then "" else ":" ++ asciiEncodeComponent u.port))
    ++ asciiEncodeComponent u.path
    ++ (if u.query.isEmpty then "" else "?" ++ asciiEncodeComponent u.query)
    ++ (if u.ref.isEmpty then "" else "#" ++ asciiEncodeComponent u.ref)

/-- Modelled from the spec: `bool operator==(const IRI&) const` — "two
identifiers are equal iff their `URIString()` canonical forms are
byte-identical". -/
def IRI.eq (a b : IRI) : Bool := a.URIString == b.URIString

/-- Modelled from the spec: `bool operator!=(const IRI&) const` — the
negation of equality. -/
def IRI.ne (a b : IRI) : Bool := !(IRI.eq a b)

/-- Modelled from the spec: `bool operator<(const IRI&) const` — "Ordering
is the lexicographic order of the same canonical form". -/
def IRI.lt (a b : IRI) : Bool := decide (a.URIString < b.URIString)

/-- Modelled from the spec: the external engine's `Parse(text)` over the
grammar `scheme://[user[:pass]@]host[:port][/path][?query][#fragment]`, or
a scheme-less relative reference (empty scheme, empty host, the text as
path).  The fragment follows the first `#`, the query the first `?`. -/
def parseGURL (s : String) : GURLState :=
  let l := s.data
  let bf :=
    match splitOnceList '#' l with
    | none => (l, ([] : List Char))
    | some (a, b) => (a, b)
  let cq :=
    match splitOnceList '?' bf.1 with
    | none => (bf.1, ([] : List Char))
    | some (a, b) => (a, b)
  let core := cq.1
  let query := cq.2
  let frag := bf.2
  match splitOnceList ':' core with
  | some (sch, rest) =>
    if rest.take 2 = ['/', '/'] then
      let after := rest.drop 2
      let ap :=
        match splitOnceList '/' after with
        | none => (after, ([] : List Char))
        | some (a, p) => (a, '/' :: p)
      let uph :=
        match splitOnceList '@' ap.1 with
        | none => (([] : List Char), ([] : List Char), ap.1)
        | some (ui, hp) =>
          match splitOnceList ':' ui with
          | none => (ui, ([] : List Char), hp)
          | some (u, pw) => (u, pw, hp)
      let hp :=
        match splitOnceList ':' uph.2.2 with
        | none => (uph.2.2, ([] : List Char))
        | some (h, p) => (h, p)
      ⟨String.mk sch, String.mk uph.1, String.mk uph.2.1, String.mk hp.1,
       String.mk hp.2, String.mk ap.2, String.mk query, String.mk frag⟩
    else
      ⟨"", "", "", "", "", String.mk core, String.mk query, String.mk frag⟩
  | none => ⟨"", "", "", "", "", String.mk core, String.mk query, String.mk frag⟩

/-- Modelled from the spec: `IRI(const string& iriStr)` — "URN if it matches
`urn:<id>:<name>`; else delegated URL parse; empty string → invalid/empty
identifier ... unparseable input yields an identifier with no host and
empty components". -/
def IRI.fromString (s : String) : IRI :=
  if s.isEmpty then ⟨[], some GURLState.empty, ""⟩
  else if List.isPrefixOf "urn:".data s.data then
    match splitOnce (s.drop 4) ':' with
    | some (n, ns) => ⟨[gURNScheme, n, ns], some GURLState.empty, s⟩
    | none => ⟨[], some (parseGURL s), s⟩
  else ⟨[], some (parseGURL s), s⟩

/-- Modelled from the spec: `IRI(const string& nameID, const string& namespacedString)` —
"always produces a URN variant with components `("urn", nameID, namespacedString)`".
Per the spec's error policy the URL-only accessors of a URN identifier
return an empty/default value, so the URN variant carries the all-empty URL
state. -/
def IRI.fromURN (nameID namespacedString : String) : IRI :=
  ⟨[gURNScheme, nameID, namespacedString], some GURLState.empty, ""⟩

/-- Modelled from the spec: `IRI(scheme, host, path, query, fragment)` —
"produces a URL variant"; per the header doc, if the path is empty or does
not begin with the path separator character, one is inserted automatically. -/
def IRI.fromURLComponents (scheme host path query frag : String) : IRI :=
  let p := if path.isEmpty || !(List.isPrefixOf gPathSeparator.data path.data)
           then gPathSeparator ++ path else path
  ⟨[], some ⟨scheme, "", "", host, "", p, query, frag⟩, ""⟩

/-- Modelled from the spec: `SetScheme` — mutates the URL state; any
mutation invalidates the `_pureIRI` cache.  A null URL pointer would be a
null dereference in the code; it is modelled as leaving the value unchanged
(the case is unreachable from the public constructors). -/
def IRI.SetScheme (i : IRI) (s : String) : IRI :=
  match i.url with
  | none => i
  | some u => ⟨i.urnComponents, some ⟨s, u.username, u.password, u.host, u.port, u.path, u.query, u.ref⟩, ""⟩

/-- Modelled from the spec: `SetHost`. -/
def IRI.SetHost (i : IRI) (h : String) : IRI :=
  match i.url with
  | none => i
  | some u => ⟨i.urnComponents, some ⟨u.scheme, u.username, u.password, h, u.port, u.path, u.query, u.ref⟩, ""⟩

/-- Modelled from the spec: `SetCredentials(user, pass)`. -/
def IRI.SetCredentials (i : IRI) (user pass : String) : IRI :=
  match i.url with
  | none => i
  | some u => ⟨i.urnComponents, some ⟨u.scheme, user, pass, u.host, u.port, u.path, u.query, u.ref⟩, ""⟩

/-- Modelled from the spec: `SetQuery`. -/
def IRI.SetQuery (i : IRI) (q : String) : IRI :=
  match i.url with
  | none => i
  | some u => ⟨i.urnComponents, some ⟨u.scheme, u.username, u.password, u.host, u.port, u.path, q, u.ref⟩, ""⟩

/-- Modelled from the spec: `SetFragment`. -/
def IRI.SetFragment (i : IRI) (f : String) : IRI :=
  match i.url with
  | none => i
  | some u => ⟨i.urnComponents, some ⟨u.scheme, u.username, u.password, u.host, u.port, u.path, u.query, f⟩, ""⟩

/-- Modelled from the spec: `AddPathComponent(component)` — "appends
`component` to the path; if the current path is empty or does not already
end with the path-separator character, insert a separator before the new
component". -/
def IRI.AddPathComponent (i : IRI) (component : String) : IRI :=
  match i.url with
  | none => i
  | some u =>
    let p := if u.path.isEmpty || !(List.isSuffixOf gPathSeparator.data u.path.data)
             then u.path ++ gPathSeparator ++ component
             else u.path ++ component
    ⟨i.urnComponents, some ⟨u.scheme, u.username, u.password, u.host, u.port, p, u.query, u.ref⟩, ""⟩

/-- `true` iff no raw component delimiter occurs in the string. -/
def noRawDelims (s : String) : Bool := s.data.all (fun c => decide (c ∉ delimChars))

/-- The identifiers reachable through the public interface: the three
constructors, the default constructor, copying, moving (either side of the
move), and the mutators. -/
inductive Reachable : IRI → Prop
  | emptyCtor : Reachable IRI.empty
  | strCtor (s : String) : Reachable (IRI.fromString s)
  | urnCtor (n ns : String) : Reachable (IRI.fromURN n ns)
  | urlCtor (sch h p q f : String) : Reachable (IRI.fromURLComponents sch h p q f)
  | copied {i i' : IRI} : Reachable i → IRI.copy i = some i' → Reachable i'
  | movedDst {i : IRI} : Reachable i → Reachable (IRI.moveCtor i).1
  | movedSrc {i : IRI} : Reachable i → Reachable (IRI.moveCtor i).2
  | moveAssignDst {t i : IRI} : Reachable t → Reachable i → Reachable (IRI.moveAssign t i).1
  | moveAssignSrc {t i : IRI} : Reachable t → Reachable i → Reachable (IRI.moveAssign t i).2
  | setScheme {i : IRI} (s : String) : Reachable i → Reachable (i.SetScheme s)
  | setHost {i : IRI} (h : String) : Reachable i → Reachable (i.SetHost h)
  | setCredentials {i : IRI} (u p : String) : Reachable i → Reachable (i.SetCredentials u p)
  | setQuery {i : IRI} (q : String) : Reachable i → Reachable (i.SetQuery q)
  | setFragment {i : IRI} (f : String) : Reachable i → Reachable (i.SetFragment f)
  | addPath {i : IRI} (c : String) : Reachable i → Reachable (i.AddPathComponent c)

deriving instance DecidableEq for Except

lemma mem_concatMap {α β : Type} {f : α → List β} {b : β} :
    ∀ {l : List α}, b ∈ concatMap f l ↔ ∃ a ∈ l, b ∈ f a := by
  intro l
  induction l with
  | nil => simp [concatMap]
  | cons a as ih => simp [concatMap, ih, List.mem_append]

lemma data_append (a b : String) : (a ++ b).data = a.data ++ b.data := rfl

lemma allAscii_append {a b : String} (ha : allAscii a = true) (hb : allAscii b = true) :
    allAscii (a ++ b) = true := by
  simp only [allAscii, data_append, List.all_append, Bool.and_eq_true]
  exact ⟨ha, hb⟩

lemma allAscii_ite (c : Prop) [Decidable c] {a b : String}
    (ha : allAscii a = true) (hb : allAscii b = true) :
    allAscii (if c then a else b) = true := by
  split <;> assumption

lemma hexDigit_ascii (n : Nat) : isAsciiChar (hexDigit n) = true := by
  unfold hexDigit
  by_cases h : n < 16
  · interval_cases n <;> decide
  · rw [List.getD_eq_default]
    · decide
    · simp only [hexUpper, List.length]
      omega

lemma hexDigit_not_delim (n : Nat) : hexDigit n ∉ delimChars := by
  unfold hexDigit
  by_cases h : n < 16
  · interval_cases n <;> decide
  · rw [List.getD_eq_default]
    · decide
    · simp only [hexUpper, List.length]
      omega

lemma percentEscape_ascii {b : Nat} {x : Char} (hx : x ∈ percentEscape b) :
    isAsciiChar x = true := by
  simp only [percentEscape, List.mem_cons, List.not_mem_nil, or_false] at hx
  rcases hx with h | h | h <;> subst h
  · decide
  · exact hexDigit_ascii _
  · exact hexDigit_ascii _

lemma percentEscape_not_delim {b : Nat} {x : Char} (hx : x ∈ percentEscape b) :
    x ∉ delimChars := by
  simp only [percentEscape, List.mem_cons, List.not_mem_nil, or_false] at hx
  rcases hx with h | h | h <;> subst h
  · decide
  · exact hexDigit_not_delim _
  · exact hexDigit_not_delim _

lemma percentEncodeUCS_allAscii (s : String) : allAscii (PercentEncodeUCS s) = true := by
  simp only [allAscii, PercentEncodeUCS, List.all_eq_true]
  intro x hx
  rcases mem_concatMap.1 hx with ⟨c, _, hc⟩
  by_cases hascii : isAsciiChar c = true
  · rw [if_pos hascii] at hc
    rw [List.mem_singleton] at hc
    subst hc; exact hascii
  · rw [if_neg hascii] at hc
    rcases mem_concatMap.1 hc with ⟨bb, _, hb⟩
    exact percentEscape_ascii hb

lemma asciiEncodeComponent_allAscii (s : String) :
    allAscii (asciiEncodeComponent s) = true :=
  percentEncodeUCS_allAscii _


lemma urlEncodeComponent_noRawDelims (s : String) :
    noRawDelims (URLEncodeComponent s) = true := by
  simp only [noRawDelims, URLEncodeComponent, List.all_eq_true]
  intro x hx
  rcases mem_concatMap.1 hx with ⟨c, _, hc⟩
  by_cases hres : c ∈ gReservedCharacters
  · rw [if_pos hres] at hc
    exact decide_eq_true (percentEscape_not_delim hc)
  · rw [if_neg hres] at hc
    rw [List.mem_singleton] at hc
    have hnd : x ∉ delimChars := by
      intro hd
      apply hres
      rw [← hc]
      simp only [delimChars, List.mem_cons, List.not_mem_nil, or_false] at hd
      rcases hd with h | h | h <;> subst h <;> decide
    exact decide_eq_true hnd

lemma percentEncodeUCS_preserves_noRawDelims {s : String}
    (h : noRawDelims s = true) : noRawDelims (PercentEncodeUCS s) = true := by
  simp only [noRawDelims, PercentEncodeUCS, List.all_eq_true] at h ⊢
  intro x hx
  rcases mem_concatMap.1 hx with ⟨c, hcs, hc⟩
  by_cases hascii : isAsciiChar c = true
  · rw [if_pos hascii] at hc
    rw [List.mem_singleton] at hc
    rw [hc]
    exact h c hcs
  · rw [if_neg hascii] at hc
    rcases mem_concatMap.1 hc with ⟨bb, _, hb⟩
    exact decide_eq_true (percentEscape_not_delim hb)

lemma asciiEncodeComponent_noRawDelims (s : String) :
    noRawDelims (asciiEncodeComponent s) = true :=
  percentEncodeUCS_preserves_noRawDelims (urlEncodeComponent_noRawDelims s)

lemma idnEncodeHostname_allAscii (s : String) :
    allAscii (IDNEncodeHostname s) = true := by
  unfold IDNEncodeHostname
  by_cases h : s.data.all isAsciiChar = true
  · rw [if_pos h]
    exact h
  · rw [if_neg h]
    refine allAscii_append (by decide) ?_
    simp only [allAscii, List.all_eq_true]
    intro x hx
    rcases mem_concatMap.1 hx with ⟨c, _, hc⟩
    rcases mem_concatMap.1 hc with ⟨bb, _, hb⟩
    simp only [List.mem_cons, List.not_mem_nil, or_false] at hb
    rcases hb with h1 | h1 <;> subst h1 <;> exact hexDigit_ascii _

lemma joinComponents_allAscii {l : List String}
    (h : ∀ s ∈ l, allAscii s = true) : allAscii (joinComponents l) = true := by
  induction l with
  | nil => decide
  | cons a rest ih =>
    cases rest with
    | nil => exact h a (List.mem_singleton.2 rfl)
    | cons b bs =>
      have ha : allAscii a = true := h a (List.mem_cons_self _ _)
      have hrest : allAscii (joinComponents (b :: bs)) = true :=
        ih (fun s hs => h s (List.mem_cons_of_mem _ hs))
      show allAscii (a ++ ":" ++ joinComponents (b :: bs)) = true
      exact allAscii_append (allAscii_append ha (by decide)) hrest

lemma uriString_allAscii (i : IRI) : allAscii i.URIString = true := by
  unfold IRI.URIString
  by_cases hurn : i.IsURN = true
  · rw [if_pos hurn]
    refine joinComponents_allAscii ?_
    intro s hs
    rcases List.mem_map.1 hs with ⟨t, _, ht⟩
    subst ht
    exact asciiEncodeComponent_allAscii t
  · rw [if_neg hurn]
    refine allAscii_append (allAscii_append (allAscii_append (allAscii_append ?_ ?_) ?_) ?_) ?_
    · exact allAscii_ite _ (by decide) (allAscii_append (asciiEncodeComponent_allAscii _) (by decide))
    · refine allAscii_ite _ (by decide) ?_
      refine allAscii_append (allAscii_append (allAscii_append (by decide) ?_) ?_) ?_
      · refine allAscii_ite _ (by decide) ?_
        refine allAscii_append (allAscii_append (asciiEncodeComponent_allAscii _) ?_) (by decide)
        exact allAscii_ite _ (by decide) (allAscii_append (by decide) (asciiEncodeComponent_allAscii _))
      · exact idnEncodeHostname_allAscii _
      · exact allAscii_ite _ (by decide) (allAscii_append (by decide) (asciiEncodeComponent_allAscii _))
    · exact asciiEncodeComponent_allAscii _
    · exact allAscii_ite _ (by decide) (allAscii_append (by decide) (asciiEncodeComponent_allAscii _))
    · exact allAscii_ite _ (by decide) (allAscii_append (by decide) (asciiEncodeComponent_allAscii _))

lemma nameID_error_iff (i : IRI) :
    i.NameID = Except.error "Not a URN" ↔ i.IsURN = false := by
  unfold IRI.NameID
  cases hb : i.IsURN <;> simp

lemma namespacedString_error_iff (i : IRI) :
    i.NamespacedString = Except.error "Not a URN" ↔ i.IsURN = false := by
  unfold IRI.NamespacedString
  cases hb : i.IsURN <;> simp

lemma fromString_urn_shape (s : String) :
    (IRI.fromString s).urnComponents = [] ∨ (IRI.fromString s).urnComponents.length = 3 := by
  unfold IRI.fromString
  split
  · exact Or.inl rfl
  · split
    · split
      · exact Or.inr rfl
      · exact Or.inl rfl
    · exact Or.inl rfl

lemma setScheme_urn (i : IRI) (s : String) :
    (i.SetScheme s).urnComponents = i.urnComponents := by
  unfold IRI.SetScheme; split <;> rfl

lemma setHost_urn (i : IRI) (h : String) :
    (i.SetHost h).urnComponents = i.urnComponents := by
  unfold IRI.SetHost; split <;> rfl

lemma setCredentials_urn (i : IRI) (u p : String) :
    (i.SetCredentials u p).urnComponents = i.urnComponents := by
  unfold IRI.SetCredentials; split <;> rfl

lemma setQuery_urn (i : IRI) (q : String) :
    (i.SetQuery q).urnComponents = i.urnComponents := by
  unfold IRI.SetQuery; split <;> rfl

lemma setFragment_urn (i : IRI) (f : String) :
    (i.SetFragment f).urnComponents = i.urnComponents := by
  unfold IRI.SetFragment; split <;> rfl

lemma addPathComponent_urn (i : IRI) (c : String) :
    (i.AddPathComponent c).urnComponents = i.urnComponents := by
  unfold IRI.AddPathComponent; split <;> rfl

lemma reachable_urn_shape {i : IRI} (h : Reachable i) :
    i.urnComponents.length = 0 ∨ i.urnComponents.length = 3 := by
  induction h with
  | emptyCtor => exact Or.inl rfl
  | strCtor s =>
    rcases fromString_urn_shape s with h1 | h1
    · exact Or.inl (by rw [h1]; rfl)
    · exact Or.inr h1
  | urnCtor n ns => exact Or.inr rfl
  | urlCtor sch h p q f => exact Or.inl rfl
  | copied hr hc ih =>
    unfold IRI.copy at hc
    split at hc
    · exact absurd hc (by simp)
    · rw [Option.some_inj] at hc
      rw [← hc]
      exact ih
  | movedDst hr ih => exact ih
  | movedSrc hr ih => exact Or.inl rfl
  | moveAssignDst ht hi iht ihi => exact ihi
  | moveAssignSrc ht hi iht ihi => exact Or.inl rfl
  | setScheme s hr ih => rw [setScheme_urn]; exact ih
  | setHost hh hr ih => rw [setHost_urn]; exact ih
  | setCredentials u p hr ih => rw [setCredentials_urn]; exact ih
  | setQuery q hr ih => rw [setQuery_urn]; exact ih
  | setFragment f hr ih => rw [setFragment_urn]; exact ih
  | addPath c hr ih => rw [addPathComponent_urn]; exact ih

lemma scheme_isSome_of_url_isSome {i : IRI} (h : i.url.isSome = true) :
    i.Scheme.isSome = true := by
  unfold IRI.Scheme
  by_cases hu : i.IsURN = true
  · rw [if_pos hu]; rfl
  · rw [if_neg hu]
    rcases Option.isSome_iff_exists.1 h with ⟨u, hu2⟩
    rw [hu2]; rfl

lemma fromString_url_isSome (s : String) : (IRI.fromString s).url.isSome = true := by
  unfold IRI.fromString
  split
  · rfl
  · split
    · split <;> rfl
    · rfl

/-- C1: constructing an identifier from the URN pair (n, s) of non-empty
strings yields IsURN() true, NameID() == n, NamespacedString() == s and
Scheme() == "urn". -/
theorem c1_urn_pair_roundtrip (n s : String) (_hn : n ≠ "") (_hs : s ≠ "") :
    (IRI.fromURN n s).IsURN = true ∧
    (IRI.fromURN n s).NameID = Except.ok n ∧
    (IRI.fromURN n s).NamespacedString = Except.ok s ∧
    (IRI.fromURN n s).Scheme = some "urn" :=
  ⟨rfl, rfl, rfl, rfl⟩

/-- Witness for C1 at the spec's scenario input. -/
theorem c1_urn_pair_roundtrip_witness :
    ("isbn" : String) ≠ "" ∧ ("0451450523" : String) ≠ "" ∧
    ((IRI.fromURN "isbn" "0451450523").IsURN = true ∧
     (IRI.fromURN "isbn" "0451450523").NameID = Except.ok "isbn" ∧
     (IRI.fromURN "isbn" "0451450523").NamespacedString = Except.ok "0451450523" ∧
     (IRI.fromURN "isbn" "0451450523").Scheme = some "urn") :=
  ⟨by decide, by decide,
   c1_urn_pair_roundtrip "isbn" "0451450523" (by decide) (by decide)⟩

/-- C2: every reachable identifier has URN component count 3 (URN) or 0
(empty/invalid or URL), never 2; IsURN() is the count > 1 test; and the
variant-sensitive accessors (NameID, NamespacedString, Scheme) dispatch on
exactly this condition. -/
theorem c2_urn_component_invariant (i : IRI) (h : Reachable i) :
    (i.urnComponents.length = 0 ∨ i.urnComponents.length = 3) ∧
    i.urnComponents.length ≠ 2 ∧
    (i.IsURN = true ↔ i.urnComponents.length = 3) ∧
    (∀ j : IRI, j.IsURN = true ↔ j.urnComponents.length > 1) ∧
    (i.NameID = Except.error "Not a URN" ↔ i.IsURN = false) ∧
    (i.NamespacedString = Except.error "Not a URN" ↔ i.IsURN = false) ∧
    i.Scheme = (if i.IsURN then some (i.urnComponents.getD 0 "")
                else i.url.map GURLState.scheme) := by
  have hs := reachable_urn_shape h
  refine ⟨hs, ?_, ?_, ?_, nameID_error_iff i, namespacedString_error_iff i, rfl⟩
  · omega
  · simp only [IRI.IsURN, decide_eq_true_eq]
    omega
  · intro j
    simp [IRI.IsURN]

/-- Witness for C2 at a concrete reachable identifier. -/
theorem c2_urn_component_invariant_witness :
    ((IRI.fromURN "isbn" "0451450523").urnComponents.length = 0 ∨
     (IRI.fromURN "isbn" "0451450523").urnComponents.length = 3) ∧
    (IRI.fromURN "isbn" "0451450523").urnComponents.length ≠ 2 :=
  ⟨(c2_urn_component_invariant _ (Reachable.urnCtor "isbn" "0451450523")).1,
   (c2_urn_component_invariant _ (Reachable.urnCtor "isbn" "0451450523")).2.1⟩

/-- C3: NameID() and NamespacedString() signal (throw) exactly on a
non-URN identifier, and the URL-only accessors of a URN identifier
produce values, not signals — the URN-accessor mismatch is the only
signaled variant error. -/
theorem c3_urn_accessors_signal (i : IRI) (n ns : String) :
    (i.NameID = Except.error "Not a URN" ↔ i.IsURN = false) ∧
    (i.NamespacedString = Except.error "Not a URN" ↔ i.IsURN = false) ∧
    (i.IsURN = true →
      i.NameID = Except.ok (i.urnComponents.getD 1 "") ∧
      i.NamespacedString = Except.ok (i.urnComponents.getD 2 "")) ∧
    ((IRI.fromURN n ns).Host.isSome = true ∧
     (IRI.fromURN n ns).Port.isSome = true ∧
     (IRI.fromURN n ns).Query.isSome = true ∧
     (IRI.fromURN n ns).Fragment.isSome = true ∧
     (IRI.fromURN n ns).LastPathComponent.isSome = true ∧
     (IRI.fromURN n ns).Scheme.isSome = true) := by
  refine ⟨nameID_error_iff i, namespacedString_error_iff i, ?_,
          rfl, rfl, rfl, rfl, rfl, rfl⟩
  intro hu
  unfold IRI.NameID IRI.NamespacedString
  rw [if_pos hu, if_pos hu]
  exact ⟨rfl, rfl⟩

/-- Witness for C3: a URL-variant identifier, whose NameID() signals. -/
theorem c3_urn_accessors_signal_witness :
    (IRI.fromString "http://example.com/a").IsURN = false ∧
    (IRI.fromString "http://example.com/a").NameID = Except.error "Not a URN" := by
  refine ⟨by decide, ?_⟩
  exact (c3_urn_accessors_signal (IRI.fromString "http://example.com/a") "x" "y").1.2
    (by decide)

/-- C4: equality is byte-identity of URIString(), inequality its negation,
and the less-than comparator is the lexicographic order on URIString(),
a strict weak ordering consistent with equality. -/
theorem c4_equality_ordering (a b c : IRI) :
    (IRI.eq a b = true ↔ a.URIString = b.URIString) ∧
    IRI.ne a b = !(IRI.eq a b) ∧
    IRI.lt a a = false ∧
    (IRI.lt a b = true → IRI.lt b c = true → IRI.lt a c = true) ∧
    (IRI.eq a b = true ↔ (IRI.lt a b = false ∧ IRI.lt b a = false)) := by
  refine ⟨?_, rfl, ?_, ?_, ?_⟩
  · simp [IRI.eq]
  · simp [IRI.lt]
  · intro h1 h2
    simp only [IRI.lt, decide_eq_true_eq] at h1 h2 ⊢
    exact lt_trans h1 h2
  · constructor
    · intro h
      simp only [IRI.eq, beq_iff_eq] at h
      simp only [IRI.lt, decide_eq_false_iff_not, h]
      exact ⟨lt_irrefl _, lt_irrefl _⟩
    · rintro ⟨h1, h2⟩
      simp only [IRI.lt, decide_eq_false_iff_not, not_lt] at h1 h2
      simp only [IRI.eq, beq_iff_eq]
      exact le_antisymm h2 h1

/-- Witness for C4 at concrete identifiers. -/
theorem c4_equality_ordering_witness :
    IRI.eq (IRI.fromURN "a" "b") (IRI.fromURN "a" "b") = true ∧
    IRI.lt (IRI.fromURN "a" "b") (IRI.fromURN "a" "b") = false := by
  refine ⟨?_, ?_⟩
  · exact ((c4_equality_ordering (IRI.fromURN "a" "b") (IRI.fromURN "a" "b")
      (IRI.fromURN "a" "b")).1).2 rfl
  · exact (c4_equality_ordering (IRI.fromURN "a" "b") (IRI.fromURN "a" "b")
      (IRI.fromURN "a" "b")).2.2.1

/-- C5: URIString() output is pure ASCII for every identifier; each encoded
component is ASCII with no raw component delimiter surviving, and the IDN
host encoding is ASCII. -/
theorem c5_uristring_ascii (i : IRI) (s : String) :
    allAscii i.URIString = true ∧
    allAscii (asciiEncodeComponent s) = true ∧
    noRawDelims (asciiEncodeComponent s) = true ∧
    allAscii (IDNEncodeHostname s) = true :=
  ⟨uriString_allAscii i, asciiEncodeComponent_allAscii s,
   asciiEncodeComponent_noRawDelims s, idnEncodeHostname_allAscii s⟩

/-- C6: the URL-only accessors on a URN-variant identifier (whose URL
state is the engine's empty state) return empty/default values and do not
signal. -/
theorem c6_url_accessors_default_on_urn (i : IRI)
    (_hu : i.IsURN = true) (h : i.url = some GURLState.empty) :
    i.Host = some "" ∧ i.Port = some (-1) ∧ i.Query = some "" ∧
    i.Fragment = some "" ∧ i.LastPathComponent = some "" ∧
    (∀ n s : String,
      (IRI.fromURN n s).Host = some "" ∧
      (IRI.fromURN n s).Port = some (-1) ∧
      (IRI.fromURN n s).Query = some "" ∧
      (IRI.fromURN n s).Fragment = some "" ∧
      (IRI.fromURN n s).LastPathComponent = some "") := by
  refine ⟨?_, ?_, ?_, ?_, ?_, fun n s => ⟨rfl, rfl, rfl, rfl, rfl⟩⟩
  · unfold IRI.Host; rw [h]; rfl
  · unfold IRI.Port; rw [h]; rfl
  · unfold IRI.Query; rw [h]; rfl
  · unfold IRI.Fragment; rw [h]; rfl
  · unfold IRI.LastPathComponent; rw [h]; rfl

/-- Witness for C6 at a concrete URN identifier. -/
theorem c6_url_accessors_default_on_urn_witness :
    (IRI.fromURN "isbn" "x").IsURN = true ∧
    (IRI.fromURN "isbn" "x").url = some GURLState.empty ∧
    ((IRI.fromURN "isbn" "x").Host = some "" ∧
     (IRI.fromURN "isbn" "x").Port = some (-1)) := by
  refine ⟨by decide, rfl, ?_⟩
  have hc := c6_url_accessors_default_on_urn (IRI.fromURN "isbn" "x") (by decide) rfl
  exact ⟨hc.1, hc.2.1⟩

/-- C7 counterexample: on the default-constructed empty identifier the
URL branch of Scheme() dereferences the null URL pointer, so Scheme() is
not defined there — refuting "defined for every identifier". -/
theorem c7_scheme_counterexample : (IRI.Scheme IRI.empty).isSome = false := rfl

/-- C7 (amended): Scheme() never signals and is defined for every
identifier that is a URN or carries URL state — in particular every
constructor-produced identifier: "urn" on a URN variant, the delegated
scheme otherwise, and the empty string for fragment-only input "#foo". -/
theorem c7_scheme_always_defined (i : IRI) (n ns str : String)
    (h : i.url.isSome = true ∨ i.IsURN = true) :
    i.Scheme.isSome = true ∧
    (IRI.fromURN n ns).Scheme = some "urn" ∧
    (IRI.fromString str).Scheme.isSome = true ∧
    (IRI.fromString "#foo").Scheme = some "" ∧
    (i.IsURN = false → i.Scheme = i.url.map GURLState.scheme) := by
  refine ⟨?_, rfl, ?_, by decide, ?_⟩
  · rcases h with h1 | h1
    · exact scheme_isSome_of_url_isSome h1
    · unfold IRI.Scheme
      rw [if_pos h1]; rfl
  · exact scheme_isSome_of_url_isSome (fromString_url_isSome str)
  · intro hn
    unfold IRI.Scheme
    rw [if_neg (by simp [hn])]

/-- Witness for C7 (amended) at the fragment-only input. -/
theorem c7_scheme_always_defined_witness :
    (IRI.fromString "#foo").url.isSome = true ∧
    ((IRI.fromString "#foo").Scheme.isSome = true ∧
     (IRI.fromString "#foo").Scheme = some "") := by
  refine ⟨by decide, ?_⟩
  have hc := c7_scheme_always_defined (IRI.fromString "#foo") "n" "ns" "#foo"
    (Or.inl (by decide))
  exact ⟨hc.1, hc.2.2.2.1⟩

/-- C8: move construction and move assignment hand the source's value to
the destination and leave the moved-from identifier in the empty/invalid
state (no URN components, null URL pointer, IsURN() false). -/
theorem c8_move_leaves_source_empty (i t : IRI) :
    (IRI.moveCtor i).1 = i ∧
    (IRI.moveCtor i).2 = IRI.empty ∧
    (IRI.moveCtor i).2.IsURN = false ∧
    (IRI.moveCtor i).2.url = none ∧
    (IRI.moveAssign t i).1 = i ∧
    (IRI.moveAssign t i).2 = IRI.empty :=
  ⟨rfl, rfl, rfl, rfl, rfl, rfl⟩

/-- C9: AddPathComponent inserts the separator exactly when the path is
empty or does not end with it; "/a" + "b" gives "/a/b" and "" + "b" gives
"/b". -/
theorem c9_add_path_component (i : IRI) (u : GURLState) (c : String)
    (h : i.url = some u) :
    ((i.AddPathComponent c).url.map GURLState.path) =
      some (if u.path.isEmpty || !(List.isSuffixOf gPathSeparator.data u.path.data)
            then u.path ++ gPathSeparator ++ c else u.path ++ c) ∧
    (u.path = "/a" → ((i.AddPathComponent "b").url.map GURLState.path) = some "/a/b") ∧
    (u.path = "" → ((i.AddPathComponent "b").url.map GURLState.path) = some "/b") := by
  have key : ∀ comp : String, ((i.AddPathComponent comp).url.map GURLState.path) =
      some (if u.path.isEmpty || !(List.isSuffixOf gPathSeparator.data u.path.data)
            then u.path ++ gPathSeparator ++ comp else u.path ++ comp) := by
    intro comp
    unfold IRI.AddPathComponent
    rw [h]
    rfl
  refine ⟨key c, ?_, ?_⟩
  · intro hp
    rw [key "b", hp]
    rfl
  · intro hp
    rw [key "b", hp]
    rfl

/-- Witness for C9 at a URL identifier with path "/a". -/
theorem c9_add_path_component_witness :
    (IRI.fromString "http://example.com/a").url =
      some ⟨"http", "", "", "example.com", "", "/a", "", ""⟩ ∧
    (((IRI.fromString "http://example.com/a").AddPathComponent "b").url.map
      GURLState.path) = some "/a/b" := by
  refine ⟨by decide, ?_⟩
  exact (c9_add_path_component (IRI.fromString "http://example.com/a")
    ⟨"http", "", "", "example.com", "", "/a", "", ""⟩ "b" (by decide)).2.1 rfl

/-- C10: copy construction dereferences the source's URL pointer with no
null guard: copying any identifier whose URL pointer is null — the
default-constructed identifier and every moved-from identifier — fails,
while a non-null source is copied intact. -/
theorem c10_copy_null_url_undefined (i j : IRI) (h : i.url = none) :
    i.copy = none ∧
    IRI.empty.copy = none ∧
    ((IRI.moveCtor j).2).copy = none ∧
    (∀ k : IRI, ∀ u : GURLState, k.url = some u → k.copy = some k) := by
  refine ⟨?_, rfl, rfl, ?_⟩
  · unfold IRI.copy
    rw [h]
  · intro k u hk
    unfold IRI.copy
    rw [hk, Option.some_inj, ← hk]

/-- Witness for C10 at the default-constructed identifier. -/
theorem c10_copy_null_url_undefined_witness :
    IRI.empty.url = none ∧ IRI.empty.copy = none :=
  ⟨rfl, (c10_copy_null_url_undefined IRI.empty IRI.empty rfl).1⟩
